import Mathlib

/-!
Shallow embedding of the hardware-control core of the SMART PESTICIDE SYSTEM
(`ai/hardware.py`): the status register, the motor controller worker loop,
the arm inverse kinematics, the sprayer, and the activity-log daily report,
together with the robot orchestrator's power sequencing.

Durations, volumes and flow rates are modelled as rationals (the Python code
works with floats but every constant involved is decimal); the inverse
kinematics, which is genuinely transcendental, is modelled over the reals.
Timestamps of activity-log rows are modelled as naturals (ISO-8601 strings
compare lexicographically, i.e. chronologically).  Status fields the claims
never mention (`last_operation`, `uptime_start`, `battery_v`,
`last_error_time`) are projected away; the physical error indicator pin is
kept as a boolean.  Thread interleaving is made explicit: each worker-loop
iteration is a step function, and the encoder deltas a sampling window would
observe are supplied by an environment record.
-/

namespace SmartPesticide

/-! ## Config constants (class Config in hardware.py) -/

def USE_ENCODERS : Bool := true

def PUMP_FLOW_ML_PER_S : ℚ := 10

def DEFAULT_SPRAY_AREA_M2 : ℚ := 1/2

def SPRAY_MAX_DURATION : ℚ := 30

def MOTOR_STALL_MIN_TICKS : Int := 2

/-! ## Status register (class StatusManager) -/

/-- The value stored in `status["last_error"]`: component, message, causes. -/
structure LastError where
  component : String
  message : String
  causes : List String
deriving Repr, DecidableEq

/-- Projection of the StatusManager snapshot onto the fields the claims
mention: power state, last error, the per-component health map (an
association list, mirroring the Python dict), and the physical error
indicator pin. -/
structure Status where
  power : String
  last_error : Option LastError
  components : List (String × String)
  errorPin : Bool
deriving Repr, DecidableEq

/-- The component health map as initialized in StatusManager.__init__
(with USE_ENCODERS = True). -/
def initComponents : List (String × String) :=
  [("motors", "UNKNOWN"), ("encoders", "UNKNOWN"), ("servos", "UNKNOWN"),
   ("sprayer", "UNKNOWN"), ("ultrasonic", "UNKNOWN"), ("battery", "UNKNOWN")]

def initStatus : Status :=
  { power := "OFF", last_error := none, components := initComponents,
    errorPin := false }

/-- Python dict.setdefault(k, v): insert v only when k is absent; when k is
already present the stored value is left unchanged. -/
def setdefault (m : List (String × String)) (k v : String) :
    List (String × String) :=
  if (m.lookup k).isSome then m else m ++ [(k, v)]

/-- StatusManager.set_error: store {component, message, causes} in
last_error, apply `components.setdefault(component, "ERROR")`, and raise the
error indicator pin.  (The snapshot is re-persisted and logged; persistence
is not part of the model.) -/
def set_error (st : Status) (component message : String)
    (causes : List String) : Status :=
  { st with
    last_error := some ⟨component, message, causes⟩,
    components := setdefault st.components component "ERROR",
    errorPin := true }

/-- StatusManager.set_power. -/
def set_power (st : Status) (p : String) : Status := { st with power := p }

/-! ## Motor controller (class MotorController) -/

/-- The motor command variants put on MotorController.cmd_q. -/
inductive MotorCmd where
  | ENABLE
  | DISABLE
  | FWD
  | BWD
  | LEFT
  | RIGHT
  | STOP
  | FWD_T (t : ℚ)
deriving Repr, DecidableEq

/-- The four direction pins LEFT_FWD, LEFT_BWD, RIGHT_FWD, RIGHT_BWD. -/
structure Pins where
  lf : Bool
  lb : Bool
  rf : Bool
  rb : Bool
deriving Repr, DecidableEq

def allStop : Pins := ⟨false, false, false, false⟩

/-- Mutable motor-controller state: the `enabled` flag, the MOTOR_ENABLE
pin, and the direction pins. -/
structure MotorState where
  enabled : Bool
  enablePin : Bool
  pins : Pins
deriving Repr, DecidableEq

/-- The encoder deltas (end minus start counts, per wheel) that one
sampling window observes; supplied by the environment. -/
structure EncWindow where
  dL : Int
  dR : Int
deriving Repr, DecidableEq

/-- MotorController.check_stall over one sampling window: false when
encoders are not configured; otherwise true iff both wheels moved fewer
than MOTOR_STALL_MIN_TICKS ticks in absolute value. -/
def check_stall (useEncoders : Bool) (w : EncWindow) : Bool :=
  if !useEncoders then false
  else decide (|w.dL| < MOTOR_STALL_MIN_TICKS ∧ |w.dR| < MOTOR_STALL_MIN_TICKS)

/-- The encoder windows available to one worker-loop iteration: the window
sampled by the quick test inside the ENABLE handler, and the window sampled
by the post-command stall check. -/
structure MotorEnv where
  enableWin : EncWindow
  postWin : EncWindow
deriving Repr, DecidableEq

/-- One iteration of MotorController.run on a dequeued command, with the
encoder configuration explicit: the command dispatch, followed by the
post-command stall check (the source performs that check after processing
any command whenever encoders are configured; on a detected stall it forces
all direction pins low and raises the "stall detected" error).  DISABLE's
call to self.stop() enqueues a STOP command, returned as the list of newly
enqueued commands. -/
def stepCmdWith (useEncoders : Bool) (env : MotorEnv) (cmd : MotorCmd)
    (m : MotorState) (st : Status) : MotorState × Status × List MotorCmd :=
  let dispatched : MotorState × Status × List MotorCmd :=
    match cmd with
    | .ENABLE =>
        let m1 : MotorState := { m with enablePin := true, enabled := true }
        let st1 := set_power st "ON"
        if useEncoders && check_stall useEncoders env.enableWin then
          ({ m1 with enabled := false },
           set_error st1 "motors" "enable failed: no encoder response" [], [])
        else (m1, st1, [])
    | .DISABLE =>
        ({ m with enablePin := false, enabled := false },
         set_power st "OFF", [.STOP])
    | .FWD => ({ m with pins := ⟨true, false, true, false⟩ }, st, [])
    | .BWD => ({ m with pins := ⟨false, true, false, true⟩ }, st, [])
    | .LEFT => ({ m with pins := ⟨false, true, true, false⟩ }, st, [])
    | .RIGHT => ({ m with pins := ⟨true, false, false, true⟩ }, st, [])
    | .STOP => ({ m with pins := allStop }, st, [])
    | .FWD_T _ => ({ m with pins := allStop }, st, [])
  let m1 := dispatched.1
  let st1 := dispatched.2.1
  let newCmds := dispatched.2.2
  if useEncoders && check_stall useEncoders env.postWin then
    ({ m1 with pins := allStop },
     set_error st1 "motors" "stall detected"
       ["mechanical jam", "driver", "battery low"],
     newCmds)
  else (m1, st1, newCmds)

/-- One worker-loop iteration with the configured USE_ENCODERS. -/
def stepCmd (env : MotorEnv) (cmd : MotorCmd) (m : MotorState) (st : Status) :
    MotorState × Status × List MotorCmd :=
  stepCmdWith USE_ENCODERS env cmd m st

/-- Motor subsystem: pending command queue, motor state, shared status. -/
structure MotorSys where
  q : List MotorCmd
  m : MotorState
  st : Status
deriving Repr, DecidableEq

/-- Run the worker loop for up to `fuel` iterations (stopping early on an
empty queue); commands a handler enqueues go to the back of the queue. -/
def runWorker : Nat → MotorEnv → MotorSys → MotorSys
  | 0, _, sys => sys
  | Nat.succ n, env, sys =>
    match sys.q with
    | [] => sys
    | cmd :: rest =>
        let r := stepCmd env cmd sys.m sys.st
        runWorker n env ⟨rest ++ r.2.2, r.1, r.2.1⟩

/-- The environment of one MotorController.enable() call: the windows the
worker-loop iteration uses while the caller sleeps, and the window the
caller samples itself afterwards. -/
structure EnableEnv where
  motorEnv : MotorEnv
  callerWin : EncWindow
deriving Repr, DecidableEq

/-- MotorController.enable(): enqueue ENABLE (the worker loop consumes it
during the caller's sleep), then the caller samples encoder deltas over its
own window; when encoders are configured and both wheels moved fewer than 1
tick, flip enabled off, raise the "enable failed: no encoder increase"
error and report failure; otherwise flip enabled on and report success. -/
def enable (env : EnableEnv) (sys : MotorSys) : Bool × MotorSys :=
  let sys1 := runWorker 1 env.motorEnv { sys with q := sys.q ++ [.ENABLE] }
  if USE_ENCODERS &&
      (decide (|env.callerWin.dL| < 1) && decide (|env.callerWin.dR| < 1)) then
    (false,
     { sys1 with
       m := { sys1.m with enabled := false },
       st := set_error sys1.st "motors" "enable failed: no encoder increase" [] })
  else
    (true, { sys1 with m := { sys1.m with enabled := true } })

def initMotorSys : MotorSys :=
  ⟨[], ⟨false, false, allStop⟩, initStatus⟩

/-! ## Sprayer (class Sprayer) -/

/-- A queued spray command (duration_s, x, y, req_id); spray() only
enqueues resolved durations, never None. -/
structure SprayCmd where
  dur : ℚ
  x : Option ℚ
  y : Option ℚ
  reqId : Option String
deriving Repr, DecidableEq

/-- The result dict Sprayer.spray returns. -/
inductive SprayResult where
  | queued (duration_s : ℚ)
  | error (message : String)
deriving Repr, DecidableEq

/-- Sprayer.spray with the pump flow rate as an explicit parameter
(Config.PUMP_FLOW_ML_PER_S = 10 in the source): resolve the duration
(default 1.0 s when neither duration nor volume is given; volume divided by
max(1e-6, flow rate) when only a volume is given), reject a non-positive
resolved duration with the caught ValueError's message (the except branch
also records the failure in the status register), and otherwise enqueue the
command and acknowledge with the resolved duration. -/
def sprayWith (flow : ℚ) (duration_s volume_ml x y : Option ℚ)
    (reqId : Option String) (q : List SprayCmd) (st : Status) :
    SprayResult × List SprayCmd × Status :=
  let d : ℚ :=
    match duration_s with
    | some dd => dd
    | none =>
        match volume_ml with
        | none => 1
        | some v => v / max (1/1000000) flow
  if d ≤ 0 then
    (.error "duration must be positive", q,
     set_error st "sprayer" "spray failed: duration must be positive" [])
  else
    (.queued d, q ++ [⟨d, x, y, reqId⟩], st)

/-- Sprayer.spray at the configured flow rate. -/
def spray (duration_s volume_ml x y : Option ℚ) (reqId : Option String)
    (q : List SprayCmd) (st : Status) :
    SprayResult × List SprayCmd × Status :=
  sprayWith PUMP_FLOW_ML_PER_S duration_s volume_ml x y reqId q st

/-- A row handed to DBLogger.log by the sprayer worker:
(ml, area, x, y, duration). -/
structure SprayLogEntry where
  ml : ℚ
  area : ℚ
  x : Option ℚ
  y : Option ℚ
  dur : ℚ
deriving Repr, DecidableEq

/-- One iteration of Sprayer.run on a dequeued command: skip non-positive
durations; clamp a duration above SPRAY_MAX_DURATION to SPRAY_MAX_DURATION,
raising the non-fatal "excessive duration clipped" error exactly then;
drive the pump for the (possibly clamped) duration; log
ml = duration * PUMP_FLOW_ML_PER_S.  Returns the duration the pump was
driven for (none when the command was skipped), the activity-log rows
emitted, and the updated status. -/
def sprayStep (cmd : SprayCmd) (st : Status) :
    Option ℚ × List SprayLogEntry × Status :=
  if cmd.dur ≤ 0 then (none, [], st)
  else
    let clamped : ℚ × Status :=
      if SPRAY_MAX_DURATION < cmd.dur then
        (SPRAY_MAX_DURATION,
         set_error st "sprayer" "excessive duration clipped" ["bad command"])
      else (cmd.dur, st)
    let d := clamped.1
    let ml := d * PUMP_FLOW_ML_PER_S
    (some d, [⟨ml, DEFAULT_SPRAY_AREA_M2, cmd.x, cmd.y, d⟩], clamped.2)

/-! ## Activity log (class DBLogger) -/

/-- A committed pesticide_log row; ts is the commit timestamp (ISO-8601
strings compare lexicographically, modelled as a natural). -/
structure LogRow where
  ts : Nat
  ml_used : ℚ
  area_m2 : ℚ
  x : Option ℚ
  y : Option ℚ
  duration_s : ℚ
deriving Repr, DecidableEq

/-- Whether a row's timestamp falls in the inclusive range of
`ts BETWEEN start AND end`. -/
def inDay (s e : Nat) (r : LogRow) : Bool :=
  decide (s ≤ r.ts) && decide (r.ts ≤ e)

/-- The SELECT of DBLogger.daily_report: rows with
start_of_day ≤ ts ≤ end_of_day, ORDER BY ts. -/
def dailyReportRows (db : List LogRow) (s e : Nat) : List LogRow :=
  (db.filter (inDay s e)).mergeSort (fun a b => a.ts ≤ b.ts)

/-- daily_report's total_ml: the sum of ml_used over the selected rows. -/
def dailyReportTotal (db : List LogRow) (s e : Nat) : ℚ :=
  ((dailyReportRows db s e).map (fun r => r.ml_used)).sum

/-! ## Arm inverse kinematics (Arm.ik_2link) -/

/-- Python's math.atan2(y, x), the argument of the point (x, y) in
(-pi, pi]. -/
noncomputable def atan2 (y x : ℝ) : ℝ := Complex.arg ⟨x, y⟩

/-- Arm geometry L1 (mm). -/
def L1 : ℝ := 120

/-- Arm geometry L2 (mm). -/
def L2 : ℝ := 120

open scoped Classical in
/-- Arm.ik_2link: with r = hypot(x, y), raise "target unreachable" when
r > L1 + L2 or r < |L1 - L2|; otherwise take
cos q2 = (x² + y² - L1² - L2²) / (2 L1 L2) clamped to [-1, 1],
q2 = acos of that, q1 = atan2(y, x) - atan2(L2 sin q2, L1 + L2 cos q2),
and return (90 + degrees(q1), 90 + (degrees(q2) - 90)). -/
noncomputable def ik_2link (x y : ℝ) : Except String (ℝ × ℝ) :=
  let r := Real.sqrt (x * x + y * y)
  if r > L1 + L2 ∨ r < |L1 - L2| then .error "target unreachable"
  else
    let c := max (-1 : ℝ) (min 1 ((x * x + y * y - L1 ^ 2 - L2 ^ 2) / (2 * L1 * L2)))
    let q2 := Real.arccos c
    let k1 := L1 + L2 * Real.cos q2
    let k2 := L2 * Real.sin q2
    let q1 := atan2 y x - atan2 k2 k1
    .ok (90 + q1 * (180 / Real.pi), 90 + (q2 * (180 / Real.pi) - 90))

/-! ## Robot orchestrator (class Robot) -/

/-- The {ok, error/message} dict Robot.start_robot / stop_robot return. -/
structure RobotResult where
  ok : Bool
  text : String
deriving Repr, DecidableEq

/-- Environment of one Robot.start_robot run: the encoder windows the
enable() call consumes, whether servo PWM initialization succeeded
(arm.base_pwm is not None), and whether a centering servo move raises. -/
structure RobotEnv where
  enableEnv : EnableEnv
  armPwmPresent : Bool
  armMoveRaises : Bool
deriving Repr, DecidableEq

/-- Robot.start_robot: call motors.enable(); on failure return
{ok: false, "motors not responding; check connections"} without touching
the arm.  Otherwise, when PWM is present, center the shoulder and elbow
servos to 90 (a raise there is recorded as an arm error and surfaced as
{ok: false, "arm not responding"}); on full success set power ON and return
{ok: true}.  The third component lists the centering moves issued. -/
def start_robot (env : RobotEnv) (sys : MotorSys) :
    RobotResult × MotorSys × List (String × ℚ) :=
  let r := enable env.enableEnv sys
  let sys1 := r.2
  if !r.1 then
    (⟨false, "motors not responding; check connections"⟩, sys1, [])
  else if env.armPwmPresent && env.armMoveRaises then
    (⟨false, "arm not responding"⟩,
     { sys1 with st := set_error sys1.st "arm" "servo move failed" [] }, [])
  else
    (⟨true, "robot powered ON"⟩,
     { sys1 with st := set_power sys1.st "ON" },
     if env.armPwmPresent then [("shoulder", 90), ("elbow", 90)] else [])

/-- Environment of one Robot.stop_robot run: the encoder windows for any
worker-loop iterations, and whether the worker thread consumes the
enqueued STOP and DISABLE commands before stop_robot reads the enabled
flag (disable() merely enqueues and stop_robot does not wait, so both
interleavings occur). -/
structure StopEnv where
  motorEnv : MotorEnv
  workerRuns : Bool
deriving Repr, DecidableEq

/-- Robot.stop_robot: enqueue STOP, drain the sprayer's queue of
not-yet-started commands, enqueue DISABLE; then read motors.enabled — if it
is still set, record the "failed to disable" error and return
{ok: false, "motors did not stop"} without touching the power state;
otherwise set power OFF and return {ok: true}. -/
def stop_robot (env : StopEnv) (motors : MotorSys) (sprayerQ : List SprayCmd) :
    RobotResult × MotorSys × List SprayCmd :=
  let motors1 : MotorSys := { motors with q := motors.q ++ [.STOP] }
  let sprayerQ1 : List SprayCmd := []
  let motors2 : MotorSys := { motors1 with q := motors1.q ++ [.DISABLE] }
  let motors3 :=
    if env.workerRuns then runWorker (motors2.q.length * 2) env.motorEnv motors2
    else motors2
  if motors3.m.enabled then
    (⟨false, "motors did not stop"⟩,
     { motors3 with st := set_error motors3.st "motors" "failed to disable" [] },
     sprayerQ1)
  else
    (⟨true, "robot powered OFF"⟩,
     { motors3 with st := set_power motors3.st "OFF" },
     sprayerQ1)

/-! ## Concrete environments used by counterexamples and witnesses -/

/-- A sampling window in which neither wheel moved. -/
def zeroWin : EncWindow := ⟨0, 0⟩

/-- A sampling window in which both wheels moved freely. -/
def tickWin : EncWindow := ⟨5, 5⟩

/-- Worker-loop windows in which the encoders never move. -/
def stalledMotorEnv : MotorEnv := ⟨zeroWin, zeroWin⟩

/-- Worker-loop windows in which the encoders always move. -/
def movingMotorEnv : MotorEnv := ⟨tickWin, tickWin⟩

/-- An enable() call during which no encoder ever ticks. -/
def noTickEnableEnv : EnableEnv := ⟨stalledMotorEnv, zeroWin⟩

/-- An enable() call during which the encoders tick normally. -/
def tickingEnableEnv : EnableEnv := ⟨movingMotorEnv, tickWin⟩

/-- A start_robot run with dead encoders and a healthy arm. -/
def noTickRobotEnv : RobotEnv := ⟨noTickEnableEnv, true, false⟩

/-! ## Theorems -/

/-- C3: StatusManager.set_error stores {component, message, causes} in
last_error, but uses components.setdefault, which inserts "ERROR" only when
the component key is absent: raising an error for "motors" — present as
"UNKNOWN" since startup — leaves its health entry "UNKNOWN", while a
component absent from the map ("arm") does get marked "ERROR".  This
contradicts the claim that the health entry is set to ERROR for every
component name, including components already present in the health map. -/
theorem C3_set_error_setdefault_bug :
    (set_error initStatus "motors" "stall detected"
        ["mechanical jam", "driver", "battery low"]).last_error =
      some ⟨"motors", "stall detected",
        ["mechanical jam", "driver", "battery low"]⟩ ∧
    (set_error initStatus "motors" "stall detected"
        ["mechanical jam", "driver", "battery low"]).components.lookup "motors" =
      some "UNKNOWN" ∧
    (set_error initStatus "arm" "IK error" []).components.lookup "arm" =
      some "ERROR" := by
  decide

/-- C7: MotorController.enable() with encoders configured and no encoder
movement returns False with enabled flipped off and last_error recording
the no-encoder-response failure, and returns True when the encoders tick;
but the motors component's health entry stays "UNKNOWN" on the failure due
to set_error's setdefault slip, so the claim's "marks the motors component
ERROR" does not hold in the health map. -/
theorem C7_enable_self_test_bug :
    (enable noTickEnableEnv initMotorSys).1 = false ∧
    (enable noTickEnableEnv initMotorSys).2.m.enabled = false ∧
    (enable noTickEnableEnv initMotorSys).2.st.last_error =
      some ⟨"motors", "enable failed: no encoder increase", []⟩ ∧
    (enable noTickEnableEnv initMotorSys).2.st.components.lookup "motors" =
      some "UNKNOWN" ∧
    (enable tickingEnableEnv initMotorSys).1 = true ∧
    (enable tickingEnableEnv initMotorSys).2.m.enabled = true := by
  decide

/-- C8 counterexample: the worker loop performs the stall check after a
STOP command as well — STOP is not a movement command, yet with stalled
encoders its processing raises the "stall detected" motors error,
refuting "the check is performed only after movement commands". -/
theorem C8_counterexample :
    (stepCmd stalledMotorEnv .STOP ⟨true, true, allStop⟩ initStatus).2.1.last_error =
      some ⟨"motors", "stall detected",
        ["mechanical jam", "driver", "battery low"]⟩ := by
  decide

/-- C8 amended: with encoders configured, after EVERY command processed by
the motor worker loop (not only movement commands), if both encoder deltas
over the post-command window stay below MOTOR_STALL_MIN_TICKS, the
controller forces STOP (all direction pins deasserted) and raises the
"stall detected" motors error with causes mechanical jam / driver /
battery low; when encoders are not configured the check is skipped
entirely and no command processing ever raises an error. -/
theorem C8_stall_check (useEnc : Bool) (env : MotorEnv) (cmd : MotorCmd)
    (m : MotorState) (st : Status) :
    (useEnc = true → |env.postWin.dL| < MOTOR_STALL_MIN_TICKS →
      |env.postWin.dR| < MOTOR_STALL_MIN_TICKS →
      (stepCmdWith useEnc env cmd m st).1.pins = allStop ∧
      (stepCmdWith useEnc env cmd m st).2.1.last_error =
        some ⟨"motors", "stall detected",
          ["mechanical jam", "driver", "battery low"]⟩) ∧
    (useEnc = false →
      (stepCmdWith useEnc env cmd m st).2.1.last_error = st.last_error) := by
  constructor
  · rintro rfl hL hR
    have hc : check_stall true env.postWin = true := by
      simp [check_stall, hL, hR]
    cases cmd <;>
      simp [stepCmdWith, hc, set_error]
  · rintro rfl
    cases cmd <;>
      simp [stepCmdWith, check_stall, set_error, set_power]

/-- C8 witness: concrete instances of both branches of C8_stall_check, at
a STOP command with stalled encoders and at a FWD command with encoders
not configured. -/
theorem C8_stall_check_witness :
    ((stepCmdWith true stalledMotorEnv .STOP ⟨true, true, allStop⟩
        initStatus).1.pins = allStop ∧
      (stepCmdWith true stalledMotorEnv .STOP ⟨true, true, allStop⟩
        initStatus).2.1.last_error =
        some ⟨"motors", "stall detected",
          ["mechanical jam", "driver", "battery low"]⟩) ∧
    (stepCmdWith false stalledMotorEnv .FWD ⟨true, true, allStop⟩
        initStatus).2.1.last_error = none := by
  refine ⟨(C8_stall_check true stalledMotorEnv .STOP ⟨true, true, allStop⟩
      initStatus).1 rfl (by decide) (by decide), ?_⟩
  have h := (C8_stall_check false stalledMotorEnv .FWD ⟨true, true, allStop⟩
      initStatus).2 rfl
  simpa using h

/-- C1 counterexample: a start_robot run in which no encoder ever ticks
fails the motor self-test and returns {ok: false} with no arm-centering
command issued — yet the power state reads "ON" afterwards, because the
worker loop's ENABLE handler set power ON before the self-test; this
refutes "the power state is set to ON only when start_robot fully
succeeds". -/
theorem C1_counterexample :
    (start_robot noTickRobotEnv initMotorSys).1.ok = false ∧
    (start_robot noTickRobotEnv initMotorSys).2.2 = [] ∧
    (start_robot noTickRobotEnv initMotorSys).2.1.st.power = "ON" := by
  decide

/-- Processing the ENABLE command during enable() leaves power "ON"
whatever the encoder windows show: the worker's ENABLE handler calls
set_power("ON") before its encoder self-test, and neither that self-test's
failure path nor the post-command stall check nor the caller's own check
ever writes the power field. -/
theorem enable_power_on (env : EnableEnv) :
    (enable env initMotorSys).2.st.power = "ON" := by
  obtain ⟨⟨ew, pw⟩, cw⟩ := env
  simp only [enable, runWorker, initMotorSys, List.nil_append, stepCmd,
    stepCmdWith]
  split_ifs <;> simp [set_error, set_power, initStatus]

/-- C1 amended: if the motor enable() self-test fails, start_robot returns
{ok: false} and issues no arm-centering command; start_robot's own
set_power("ON") runs only on full success, but the worker loop's ENABLE
handler has already set power ON before the self-test and no failure path
resets it, so the power state reads "ON" after every start_robot run,
failed ones included. -/
theorem C1_start_robot_power (env : RobotEnv) :
    ((enable env.enableEnv initMotorSys).1 = false →
      (start_robot env initMotorSys).1.ok = false ∧
      (start_robot env initMotorSys).2.2 = []) ∧
    (start_robot env initMotorSys).2.1.st.power = "ON" := by
  have hp := enable_power_on env.enableEnv
  constructor
  · intro h
    simp [start_robot, h]
  · rcases h1 : (enable env.enableEnv initMotorSys).1 with _ | _
    · simp [start_robot, h1, hp]
    · rcases h2 : env.armPwmPresent && env.armMoveRaises with _ | _
      · simp [start_robot, h1, h2, set_power]
      · simp [start_robot, h1, h2, set_error, hp]

/-- C1 witness: the amended theorem applied to the dead-encoder run. -/
theorem C1_start_robot_power_witness :
    (start_robot noTickRobotEnv initMotorSys).1.ok = false ∧
    (start_robot noTickRobotEnv initMotorSys).2.2 = [] ∧
    (start_robot noTickRobotEnv initMotorSys).2.1.st.power = "ON" := by
  obtain ⟨h1, h2⟩ := C1_start_robot_power noTickRobotEnv
  obtain ⟨ha, hb⟩ := h1 (by decide)
  exact ⟨ha, hb, h2⟩

/-- C2: stop_robot discards every not-yet-started queued spray command;
when the worker consumes the enqueued STOP and DISABLE before the enabled
check, the motors end stopped (all direction pins deasserted, enable pin
low, enabled flag clear), the call succeeds and power is OFF; when the
worker has not yet consumed them, the enabled flag is still set, so
stop_robot records the "failed to disable" error and returns
{ok: false, "motors did not stop"}, leaving the power state unchanged. -/
theorem C2_stop_robot (env : StopEnv) (m0 : MotorState) (st0 : Status)
    (sq : List SprayCmd) (hen : m0.enabled = true) :
    (stop_robot env ⟨[], m0, st0⟩ sq).2.2 = [] ∧
    (env.workerRuns = true →
      (stop_robot env ⟨[], m0, st0⟩ sq).1.ok = true ∧
      (stop_robot env ⟨[], m0, st0⟩ sq).2.1.m.enabled = false ∧
      (stop_robot env ⟨[], m0, st0⟩ sq).2.1.m.enablePin = false ∧
      (stop_robot env ⟨[], m0, st0⟩ sq).2.1.m.pins = allStop ∧
      (stop_robot env ⟨[], m0, st0⟩ sq).2.1.st.power = "OFF") ∧
    (env.workerRuns = false →
      (stop_robot env ⟨[], m0, st0⟩ sq).1 = ⟨false, "motors did not stop"⟩ ∧
      (stop_robot env ⟨[], m0, st0⟩ sq).2.1.st.power = st0.power ∧
      (stop_robot env ⟨[], m0, st0⟩ sq).2.1.st.last_error =
        some ⟨"motors", "failed to disable", []⟩) := by
  obtain ⟨⟨ew, pw⟩, runs⟩ := env
  have hq : ∀ (e : StopEnv) (ms : MotorSys) (s : List SprayCmd),
      (stop_robot e ms s).2.2 = [] := by
    intro e ms s
    simp only [stop_robot]
    rw [apply_ite (fun p : RobotResult × MotorSys × List SprayCmd => p.2.2)]
    simp
  cases runs with
  | false =>
      refine ⟨hq _ _ _, by simp, ?_⟩
      intro _
      simp [stop_robot, hen, set_error]
  | true =>
      by_cases hb : check_stall true pw = true
      · refine ⟨hq _ _ _, ?_, by simp⟩
        intro _
        simp [stop_robot, runWorker, stepCmd, stepCmdWith, USE_ENCODERS,
          hb, set_error, set_power, allStop]
      · rw [Bool.not_eq_true] at hb
        refine ⟨hq _ _ _, ?_, by simp⟩
        intro _
        simp [stop_robot, runWorker, stepCmd, stepCmdWith, USE_ENCODERS,
          hb, set_error, set_power, allStop]

/-- C2 witness: a started robot with a pending spray command, stopped in
both interleavings of the worker thread. -/
theorem C2_stop_robot_witness :
    (stop_robot ⟨movingMotorEnv, true⟩ ⟨[], ⟨true, true, allStop⟩, initStatus⟩
        [⟨1, none, none, none⟩]).1.ok = true ∧
    (stop_robot ⟨movingMotorEnv, true⟩ ⟨[], ⟨true, true, allStop⟩, initStatus⟩
        [⟨1, none, none, none⟩]).2.2 = [] ∧
    (stop_robot ⟨movingMotorEnv, true⟩ ⟨[], ⟨true, true, allStop⟩, initStatus⟩
        [⟨1, none, none, none⟩]).2.1.st.power = "OFF" ∧
    (stop_robot ⟨movingMotorEnv, false⟩ ⟨[], ⟨true, true, allStop⟩, initStatus⟩
        [⟨1, none, none, none⟩]).1 = ⟨false, "motors did not stop"⟩ ∧
    (stop_robot ⟨movingMotorEnv, false⟩ ⟨[], ⟨true, true, allStop⟩, initStatus⟩
        [⟨1, none, none, none⟩]).2.1.st.power = "OFF" := by
  obtain ⟨hq, h2, -⟩ := C2_stop_robot ⟨movingMotorEnv, true⟩
    ⟨true, true, allStop⟩ initStatus [⟨1, none, none, none⟩] rfl
  obtain ⟨hok, -, -, -, hpw⟩ := h2 rfl
  obtain ⟨-, -, h3⟩ := C2_stop_robot ⟨movingMotorEnv, false⟩
    ⟨true, true, allStop⟩ initStatus [⟨1, none, none, none⟩] rfl
  obtain ⟨hres, hpow, -⟩ := h3 rfl
  exact ⟨hok, hq, hpw, hres, hpow⟩

/-- C5: spray resolution — with neither duration nor volume the resolved
duration is 1.0 s and the call is acknowledged as queued; with only a
volume the resolved duration is volume / flow rate (flow rate 10 ml/s, so
volume 50 resolves to 5.0 s); a non-positive resolved duration (from an
explicit duration or from a non-positive volume) yields the "duration must
be positive" error result; otherwise the queued acknowledgement carries
the resolved duration. -/
theorem C5_spray_resolution (dd v : ℚ) (x y : Option ℚ) (r : Option String)
    (q : List SprayCmd) (st : Status) :
    (spray none none x y r q st).1 = .queued 1 ∧
    (0 < v → (spray none (some v) x y r q st).1 = .queued (v / 10)) ∧
    (v ≤ 0 → (spray none (some v) x y r q st).1 =
      .error "duration must be positive") ∧
    (dd ≤ 0 → (spray (some dd) none x y r q st).1 =
      .error "duration must be positive") ∧
    (0 < dd → (spray (some dd) none x y r q st).1 = .queued dd) ∧
    (spray none (some 50) x y r q st).1 = .queued 5 := by
  have h10 : max (1/1000000 : ℚ) 10 = 10 := max_eq_right (by norm_num)
  refine ⟨?_, ?_, ?_, ?_, ?_, ?_⟩
  · simp only [spray, sprayWith]
    norm_num
  · intro hv
    simp only [spray, sprayWith, PUMP_FLOW_ML_PER_S, h10]
    rw [if_neg (not_le.mpr (by linarith))]
  · intro hv
    simp only [spray, sprayWith, PUMP_FLOW_ML_PER_S, h10]
    rw [if_pos (by linarith)]
  · intro hd
    simp only [spray, sprayWith]
    rw [if_pos hd]
  · intro hd
    simp only [spray, sprayWith]
    rw [if_neg (not_le.mpr hd)]
  · simp only [spray, sprayWith, PUMP_FLOW_ML_PER_S, h10]
    norm_num

/-- C5 witness: the resolution rules at the concrete inputs of the claim:
no arguments, volume 50 at flow 10, volume -3, and duration -1. -/
theorem C5_spray_resolution_witness :
    (spray none none none none none [] initStatus).1 = .queued 1 ∧
    (spray none (some 50) none none none [] initStatus).1 = .queued 5 ∧
    (spray none (some (-3)) none none none [] initStatus).1 =
      .error "duration must be positive" ∧
    (spray (some (-1)) none none none none [] initStatus).1 =
      .error "duration must be positive" := by
  obtain ⟨h1, -, h3, h4, -, h6⟩ :=
    C5_spray_resolution (-1) (-3) none none none [] initStatus
  exact ⟨h1, h6, h3 (by norm_num), h4 (by norm_num)⟩

/-- C6: the sprayer worker loop clamps a duration above SPRAY_MAX_DURATION
to SPRAY_MAX_DURATION, raising the non-fatal "excessive duration clipped"
error exactly in that case (the status is untouched otherwise), drives the
pump for the possibly-clamped duration, and records an activity-log entry
whose milliliters equal the clamped duration times the flow rate. -/
theorem C6_spray_worker_clamp (cmd : SprayCmd) (st : Status)
    (h : 0 < cmd.dur) :
    (SPRAY_MAX_DURATION < cmd.dur →
      sprayStep cmd st =
        (some SPRAY_MAX_DURATION,
         [⟨SPRAY_MAX_DURATION * PUMP_FLOW_ML_PER_S, DEFAULT_SPRAY_AREA_M2,
           cmd.x, cmd.y, SPRAY_MAX_DURATION⟩],
         set_error st "sprayer" "excessive duration clipped" ["bad command"])) ∧
    (cmd.dur ≤ SPRAY_MAX_DURATION →
      sprayStep cmd st =
        (some cmd.dur,
         [⟨cmd.dur * PUMP_FLOW_ML_PER_S, DEFAULT_SPRAY_AREA_M2, cmd.x, cmd.y,
           cmd.dur⟩],
         st)) := by
  constructor
  · intro hc
    simp [sprayStep, not_le.mpr h, hc]
  · intro hc
    simp [sprayStep, not_le.mpr h, not_lt.mpr hc]

/-- C6 witness: spray(duration 100) clamps to 30 with the clip warning and
logs 300 ml; spray(duration 5) runs unclamped with no status change and
logs 50 ml. -/
theorem C6_spray_worker_clamp_witness :
    sprayStep ⟨100, none, none, none⟩ initStatus =
      (some 30, [⟨300, 1/2, none, none, 30⟩],
       set_error initStatus "sprayer" "excessive duration clipped"
         ["bad command"]) ∧
    sprayStep ⟨5, none, none, none⟩ initStatus =
      (some 5, [⟨50, 1/2, none, none, 5⟩], initStatus) := by
  have h1 := (C6_spray_worker_clamp ⟨100, none, none, none⟩ initStatus
    (by norm_num)).1 (by norm_num [SPRAY_MAX_DURATION])
  have h2 := (C6_spray_worker_clamp ⟨5, none, none, none⟩ initStatus
    (by norm_num)).2 (by norm_num [SPRAY_MAX_DURATION])
  norm_num [SPRAY_MAX_DURATION, PUMP_FLOW_ML_PER_S, DEFAULT_SPRAY_AREA_M2] at h1 h2
  exact ⟨h1, h2⟩

/-- C10: the volume-to-duration conversion divides by
max(1e-6, flow rate), which is positive for every configured flow rate, so
the conversion never divides by zero; when the flow rate is zero or
negative the divisor is exactly 1e-6 and a volume v resolves to
v / 1e-6 = v * 10^6 (still subject to the non-positive duration check). -/
theorem C10_flow_divisor_guard (flow v : ℚ) (x y : Option ℚ)
    (r : Option String) (q : List SprayCmd) (st : Status) :
    0 < max (1/1000000 : ℚ) flow ∧
    (flow ≤ 0 →
      (sprayWith flow none (some v) x y r q st).1 =
        if v * 1000000 ≤ 0 then .error "duration must be positive"
        else .queued (v * 1000000)) := by
  constructor
  · exact lt_max_of_lt_left (by norm_num)
  · intro hf
    have hm : max (1/1000000 : ℚ) flow = 1/1000000 :=
      max_eq_left (hf.trans (by norm_num))
    have hv : v / (1/1000000 : ℚ) = v * 1000000 := by
      rw [div_div_eq_mul_div, div_one]
    simp only [sprayWith, hm, hv]
    split <;> simp

/-- C10 witness: at flow rate 0, a 5 ml volume resolves to 5,000,000
seconds (and the divisor is positive). -/
theorem C10_flow_divisor_guard_witness :
    0 < max (1/1000000 : ℚ) 0 ∧
    (sprayWith 0 none (some 5) none none none [] initStatus).1 =
      .queued 5000000 := by
  obtain ⟨h1, h2⟩ :=
    C10_flow_divisor_guard 0 5 none none none [] initStatus
  refine ⟨h1, ?_⟩
  have := h2 le_rfl
  norm_num at this
  exact this

/-- C9: daily_report selects exactly the rows whose timestamp lies in the
inclusive [start_of_day, end_of_day] range, returns them in non-decreasing
timestamp order, and total_ml is the sum of ml_used over exactly those
rows; when every row of the log falls inside the range (N sequential
record() calls for today), the report has exactly as many entries as the
log. -/
theorem C9_daily_report (db : List LogRow) (s e : Nat) :
    List.Sorted (fun a b => a.ts ≤ b.ts) (dailyReportRows db s e) ∧
    (dailyReportRows db s e).Perm (db.filter (inDay s e)) ∧
    dailyReportTotal db s e =
      ((db.filter (inDay s e)).map (fun r => r.ml_used)).sum ∧
    ((∀ r ∈ db, s ≤ r.ts ∧ r.ts ≤ e) →
      (dailyReportRows db s e).length = db.length) := by
  have hperm : (dailyReportRows db s e).Perm (db.filter (inDay s e)) :=
    List.mergeSort_perm (db.filter (inDay s e)) (fun a b => a.ts ≤ b.ts)
  have hsorted :
      List.Sorted (fun a b => a.ts ≤ b.ts) (dailyReportRows db s e) := by
    have h := @List.sorted_mergeSort LogRow
      (fun a b => decide (a.ts ≤ b.ts))
      (fun a b c hab hbc => by
        simp only [decide_eq_true_eq] at hab hbc ⊢
        omega)
      (fun a b => by
        simp only [Bool.or_eq_true, decide_eq_true_eq]
        omega)
      (db.filter (inDay s e))
    exact h.imp (by simp)
  refine ⟨hsorted, hperm, ?_, ?_⟩
  · exact (hperm.map (fun r => r.ml_used)).sum_eq
  · intro hall
    have hfix : db.filter (inDay s e) = db := by
      apply List.filter_eq_self.mpr
      intro a ha
      obtain ⟨h1, h2⟩ := hall a ha
      simp [inDay, h1, h2]
    rw [hperm.length_eq, hfix]

/-- C9 witness: a three-row log recorded inside one day, reported in
non-decreasing timestamp order with total_ml the sum over all three. -/
theorem C9_daily_report_witness :
    List.Sorted (fun a b => a.ts ≤ b.ts)
      (dailyReportRows [⟨5, 10, 1/2, none, none, 1⟩, ⟨3, 20, 1/2, none, none, 2⟩,
        ⟨4, 30, 1/2, none, none, 3⟩] 0 86399) ∧
    dailyReportTotal [⟨5, 10, 1/2, none, none, 1⟩, ⟨3, 20, 1/2, none, none, 2⟩,
        ⟨4, 30, 1/2, none, none, 3⟩] 0 86399 = 60 ∧
    (dailyReportRows [⟨5, 10, 1/2, none, none, 1⟩, ⟨3, 20, 1/2, none, none, 2⟩,
        ⟨4, 30, 1/2, none, none, 3⟩] 0 86399).length = 3 := by
  obtain ⟨h1, -, h3, h4⟩ := C9_daily_report
    [⟨5, 10, 1/2, none, none, 1⟩, ⟨3, 20, 1/2, none, none, 2⟩,
     ⟨4, 30, 1/2, none, none, 3⟩] 0 86399
  refine ⟨h1, ?_, h4 (by decide)⟩
  rw [h3]
  norm_num [inDay]

/-- atan2(0, x) for non-negative x is 0. -/
theorem atan2_zero_of_nonneg {x : ℝ} (hx : 0 ≤ x) : atan2 0 x = 0 := by
  have h : (⟨x, 0⟩ : ℂ) = (x : ℂ) := rfl
  rw [atan2, h]
  exact Complex.arg_ofReal_of_nonneg hx

/-- atan2(0, x) for negative x is pi. -/
theorem atan2_zero_of_neg {x : ℝ} (hx : x < 0) : atan2 0 x = Real.pi := by
  have h : (⟨x, 0⟩ : ℂ) = (x : ℂ) := rfl
  rw [atan2, h]
  exact Complex.arg_ofReal_of_neg hx

/-- C4 counterexample: the target (-240, 0) is reachable — its radius 240
satisfies |L1 - L2| ≤ 240 ≤ L1 + L2 — and ik_2link returns the shoulder
angle 270, outside [0, 180], refuting "both in [0, 180]" (the elbow angle
0 is in range). -/
theorem C4_counterexample :
    |L1 - L2| ≤ Real.sqrt ((-240 : ℝ) * (-240) + 0 * 0) ∧
    Real.sqrt ((-240 : ℝ) * (-240) + 0 * 0) ≤ L1 + L2 ∧
    ik_2link (-240) 0 = .ok (270, 0) ∧ ¬((270 : ℝ) ≤ 180) := by
  have hs : Real.sqrt ((-240 : ℝ) * (-240) + 0 * 0) = 240 := by
    rw [show ((-240 : ℝ) * (-240) + 0 * 0) = 240 ^ 2 by norm_num]
    exact Real.sqrt_sq (by norm_num)
  refine ⟨by rw [hs]; norm_num [L1, L2], by rw [hs]; norm_num [L1, L2],
    ?_, by norm_num⟩
  have hcond : ¬(Real.sqrt ((-240 : ℝ) * (-240) + 0 * 0) > L1 + L2 ∨
      Real.sqrt ((-240 : ℝ) * (-240) + 0 * 0) < |L1 - L2|) := by
    rw [hs]
    push_neg
    constructor <;> norm_num [L1, L2]
  simp only [ik_2link]
  rw [if_neg hcond]
  have hc : max (-1 : ℝ)
      (min 1 (((-240 : ℝ) * (-240) + 0 * 0 - L1 ^ 2 - L2 ^ 2) /
        (2 * L1 * L2))) = 1 := by
    norm_num [L1, L2]
  rw [hc, Real.arccos_one]
  have hk1 : L1 + L2 * Real.cos 0 = 240 := by
    rw [Real.cos_zero]; norm_num [L1, L2]
  have hk2 : L2 * Real.sin 0 = 0 := by
    rw [Real.sin_zero, mul_zero]
  rw [hk1, hk2, atan2_zero_of_neg (by norm_num : (-240 : ℝ) < 0),
    atan2_zero_of_nonneg (by norm_num : (0 : ℝ) ≤ 240)]
  have hpi : (Real.pi - 0) * (180 / Real.pi) = 180 := by
    rw [sub_zero]
    field_simp
  rw [hpi]
  norm_num

/-- C4 amended: ik_2link fails with "target unreachable" exactly when
r > L1 + L2 or r < |L1 - L2|; for reachable targets it returns the
angles of the stated formulas, of which the elbow angle always lies in
[0, 180] — the shoulder angle 90 + deg(q1), however, can leave [0, 180]
(ik_2link (-240, 0) returns shoulder 270). -/
theorem C4_ik_range (x y : ℝ) :
    (Real.sqrt (x * x + y * y) > L1 + L2 ∨
        Real.sqrt (x * x + y * y) < |L1 - L2| →
      ik_2link x y = .error "target unreachable") ∧
    (¬(Real.sqrt (x * x + y * y) > L1 + L2 ∨
        Real.sqrt (x * x + y * y) < |L1 - L2|) →
      ∃ s e, ik_2link x y = .ok (s, e) ∧ 0 ≤ e ∧ e ≤ 180) := by
  constructor
  · intro h
    simp only [ik_2link]
    rw [if_pos h]
  · intro h
    simp only [ik_2link]
    rw [if_neg h]
    refine ⟨_, _, rfl, ?_, ?_⟩
    · have h1 := Real.arccos_nonneg
        (max (-1 : ℝ) (min 1 ((x * x + y * y - L1 ^ 2 - L2 ^ 2) /
          (2 * L1 * L2))))
      have h2 : (0 : ℝ) ≤ 180 / Real.pi := by positivity
      nlinarith [mul_nonneg h1 h2]
    · have h1 := Real.arccos_le_pi
        (max (-1 : ℝ) (min 1 ((x * x + y * y - L1 ^ 2 - L2 ^ 2) /
          (2 * L1 * L2))))
      have h2 : (0 : ℝ) ≤ 180 / Real.pi := by positivity
      have h3 : Real.pi * (180 / Real.pi) = 180 := by
        field_simp
      nlinarith [mul_le_mul_of_nonneg_right h1 h2]

/-- C4 witness: the unreachable target (0, 300) is rejected and the
reachable target (0, 120) yields an elbow angle in [0, 180]. -/
theorem C4_ik_range_witness :
    ik_2link 0 300 = .error "target unreachable" ∧
    ∃ s e, ik_2link 0 120 = .ok (s, e) ∧ 0 ≤ e ∧ e ≤ 180 := by
  constructor
  · apply (C4_ik_range 0 300).1
    left
    rw [show ((0 : ℝ) * 0 + 300 * 300) = 300 ^ 2 by norm_num,
      Real.sqrt_sq (by norm_num)]
    norm_num [L1, L2]
  · apply (C4_ik_range 0 120).2
    push_neg
    rw [show ((0 : ℝ) * 0 + 120 * 120) = 120 ^ 2 by norm_num,
      Real.sqrt_sq (by norm_num)]
    constructor <;> norm_num [L1, L2]

end SmartPesticide
